import Mathlib

/-!
# Shallow embedding of `res/res_geolocation/geoloc_datastore.c`

This file embeds the geolocation per-call datastore of the Asterisk
repository (files `res/res_geolocation/geoloc_datastore.c` and
`include/asterisk/res_geolocation.h`) and proves/refutes the frozen claims
about it.

Modelling conventions:
* ao2 reference-counted objects (eprofiles, sorcery profiles) are named by
  `ObjId` handles; a `World` carries the reference count of every object and
  a counter `live` of live non-ao2 heap blocks (the `ast_datastore` struct,
  the `eprofiles_datastore` struct, and the vector's element buffer).
* Nullable C pointers become `Option`; a NULL-able C string becomes
  `Option String`.
* Fallible allocations are driven by explicit `Bool` oracles, one per
  allocation site, so every failure path of the C code is reachable.
* The C `int` index of `ast_geoloc_datastore_get_eprofile` is an `Int`;
  the implicit `int` → `size_t` conversion performed by the comparison
  `ix >= AST_VECTOR_SIZE(...)` is modelled by reduction modulo `2^64`.
-/

set_option autoImplicit false

/-- Handle naming one ao2 (reference counted) object. -/
abbrev ObjId := Nat

/-- The global mutable state threaded through the embedded C functions:
reference counts of ao2 objects, a count of live non-ao2 heap blocks, and
the next fresh object id. -/
@[ext]
structure World where
  rc : ObjId → Int
  live : Int
  next : ObjId

/-- `ao2_ref(o, delta)`: adjust the reference count of `o` by `delta`. -/
def ao2_ref (w : World) (o : ObjId) (delta : Int) : World :=
  { w with rc := fun x => if x = o then w.rc x + delta else w.rc x }

/-- `struct ast_geoloc_eprofile`: only the fields the datastore code
touches are kept — the object handle (for reference counting) and the
`id` string field. -/
structure ast_geoloc_eprofile where
  oid : ObjId
  id : String
deriving DecidableEq, Repr

/-- `ao2_cleanup(p)`: release one reference when `p` is not NULL. -/
def ao2_cleanup (w : World) (p : Option ast_geoloc_eprofile) : World :=
  match p with
  | none => w
  | some e => ao2_ref w e.oid (-1)

/-- `ao2_bump(p)`: bump the reference count (when `p` is not NULL) and
return `p`. -/
def ao2_bump (w : World) (p : Option ast_geoloc_eprofile) :
    World × Option ast_geoloc_eprofile :=
  match p with
  | none => (w, none)
  | some e => (ao2_ref w e.oid 1, some e)

/-- `AST_VECTOR(geoloc_eprofiles, struct ast_geoloc_eprofile *)`: the
element list plus whether the backing buffer is currently allocated
(`elems != NULL`). A zeroed (calloc'd) vector is `⟨[], false⟩`. -/
structure GeolocVec where
  elems : List (Option ast_geoloc_eprofile)
  bufLive : Bool
deriving DecidableEq, Repr

/-- `AST_VECTOR_INIT(&vec, 2)` (from `vector.h`, not under `src/`):
allocates the element buffer, returning 0, or fails returning -1 and
leaving the vector empty with no buffer. -/
def AST_VECTOR_INIT (w : World) (ok : Bool) : World × GeolocVec × Int :=
  if ok then ({ w with live := w.live + 1 }, ⟨[], true⟩, 0)
  else (w, ⟨[], false⟩, -1)

/-- `AST_VECTOR_APPEND(&vec, x)` (from `vector.h`, not under `src/`):
on success appends `x` at the end and returns 0 (growing the buffer in
place, no net block-count change unless the buffer was NULL); on
(re)allocation failure returns -1 leaving the vector unchanged. -/
def AST_VECTOR_APPEND (w : World) (v : GeolocVec) (x : Option ast_geoloc_eprofile)
    (ok : Bool) : World × GeolocVec × Int :=
  if ok then
    ({ w with live := if v.bufLive then w.live else w.live + 1 },
      ⟨v.elems ++ [x], true⟩, 0)
  else (w, v, -1)

/-- `AST_VECTOR_SIZE(&vec)`: the current element count. -/
def AST_VECTOR_SIZE (v : GeolocVec) : Nat := v.elems.length

/-- `AST_VECTOR_GET(&vec, i)`: raw element access (the C code only uses it
after a bounds check). -/
def AST_VECTOR_GET (v : GeolocVec) (i : Nat) : Option ast_geoloc_eprofile :=
  v.elems.getD i none

/-- `AST_VECTOR_RESET(&vec, ao2_cleanup)`: run `ao2_cleanup` on every
element and empty the vector (buffer kept). -/
def AST_VECTOR_RESET (w : World) (v : GeolocVec) : World × GeolocVec :=
  (v.elems.foldl ao2_cleanup w, ⟨[], v.bufLive⟩)

/-- `AST_VECTOR_FREE(&vec)`: free the element buffer if allocated. -/
def AST_VECTOR_FREE (w : World) (v : GeolocVec) : World × GeolocVec :=
  (if v.bufLive then { w with live := w.live - 1 } else w, ⟨[], false⟩)

/-- `#define GEOLOC_DS_TYPE "geoloc_eprofiles"` -/
def GEOLOC_DS_TYPE : String := "geoloc_eprofiles"

/-- `struct eprofiles_datastore`: the private data of a geolocation
datastore.  `ast_calloc` zeroes it, so a freshly allocated one has
`id = none` (NULL) and a zeroed vector. -/
structure eprofiles_datastore where
  id : Option String
  eprofiles : GeolocVec
deriving DecidableEq, Repr

/-- `struct ast_datastore` as used here: the `info->type` string and the
`data` pointer (NULL until assigned).  `info->destroy` is always
`geoloc_datastore_free` for stores built by this file. -/
structure ast_datastore where
  dsType : String
  data : Option eprofiles_datastore
deriving DecidableEq, Repr

/-- `ast_strlen_zero(s)`: true when `s` is NULL or empty. -/
def ast_strlen_zero : Option String → Bool
  | none => true
  | some s => s.isEmpty

/-- `geoloc_datastore_free(obj)`: reset the vector releasing one reference
per member, free the vector buffer, free the private struct. -/
def geoloc_datastore_free (w : World) (eds : eprofiles_datastore) : World :=
  let wv := AST_VECTOR_RESET w eds.eprofiles
  let wf := AST_VECTOR_FREE wv.1 wv.2
  { wf.1 with live := wf.1.live - 1 }

/-- `ast_datastore_alloc(&geoloc_datastore_info, NULL)` (from
`main/datastore.c`, not under `src/`): allocate a datastore tagged with the
geolocation type and a NULL data pointer, or fail returning NULL. -/
def ast_datastore_alloc (w : World) (ok : Bool) : World × Option ast_datastore :=
  if ok then ({ w with live := w.live + 1 }, some ⟨GEOLOC_DS_TYPE, none⟩)
  else (w, none)

/-- `ast_datastore_free(ds)` (from `main/datastore.c`, not under `src/`):
run `info->destroy` (here always `geoloc_datastore_free`) on the data when
it is non-NULL, then free the datastore struct. -/
def ast_datastore_free (w : World) (ds : ast_datastore) : World :=
  let wd := match ds.data with
    | some eds => geoloc_datastore_free w eds
    | none => w
  { wd with live := wd.live - 1 }

/-- The three allocation sites of `ast_geoloc_datastore_create`:
`ast_datastore_alloc`, `ast_calloc` of the private struct, and
`AST_VECTOR_INIT`. -/
structure AllocOracle3 where
  dsOk : Bool
  edsOk : Bool
  vecOk : Bool
deriving DecidableEq, Repr

/-- `ast_geoloc_datastore_create(id)` (geoloc_datastore.c:49-83). -/
def ast_geoloc_datastore_create (w : World) (oc : AllocOracle3) (id : Option String) :
    World × Option ast_datastore :=
  if ast_strlen_zero id then (w, none)
  else
    let wds := ast_datastore_alloc w oc.dsOk
    match wds.2 with
    | none => (wds.1, none)
    | some ds =>
      if oc.edsOk then
        let w2 : World := { wds.1 with live := wds.1.live + 1 }
        let eds0 : eprofiles_datastore := ⟨none, ⟨[], false⟩⟩
        let wvi := AST_VECTOR_INIT w2 oc.vecOk
        let ds1 : ast_datastore :=
          { ds with data := some { eds0 with eprofiles := wvi.2.1 } }
        if wvi.2.2 = 0 then (wvi.1, some ds1)
        else (ast_datastore_free wvi.1 ds1, none)
      else (ast_datastore_free wds.1 ds, none)

/-- `ast_geoloc_datastore_add_eprofile(ds, eprofile)`
(geoloc_datastore.c:85-102).  Returns the updated store alongside the world
and the C return value: the result of `AST_VECTOR_APPEND` (0 on success,
-1 on failure), or -1 when the guard fails. -/
def ast_geoloc_datastore_add_eprofile (w : World) (ds : Option ast_datastore)
    (eprofile : Option ast_geoloc_eprofile) (appendOk : Bool) :
    World × Option ast_datastore × Int :=
  match ds with
  | none => (w, none, -1)
  | some d =>
    if d.dsType ≠ GEOLOC_DS_TYPE then (w, some d, -1)
    else match d.data with
      | none => (w, some d, -1)
      | some eds =>
        match eprofile with
        | none => (w, some d, -1)
        | some _ =>
          let wap := AST_VECTOR_APPEND w eds.eprofiles eprofile appendOk
          (wap.1, some { d with data := some { eds with eprofiles := wap.2.1 } },
            wap.2.2)

/-- `ast_geoloc_datastore_size(ds)` (geoloc_datastore.c:104-115). -/
def ast_geoloc_datastore_size (ds : Option ast_datastore) : Int :=
  match ds with
  | none => -1
  | some d =>
    if d.dsType ≠ GEOLOC_DS_TYPE then -1
    else match d.data with
      | none => -1
      | some eds => (AST_VECTOR_SIZE eds.eprofiles : Int)

/-- The C `int` → `size_t` conversion applied to `ix` by the usual
arithmetic conversions in `ix >= AST_VECTOR_SIZE(&eds->eprofiles)`. -/
def sizeTOfInt (i : Int) : Nat := (i % (2 : Int) ^ 64).toNat

/-- `ast_geoloc_datastore_get_eprofile(ds, ix)` (geoloc_datastore.c:117-134).
The bounds check compares `ix` converted to `size_t`; on success the element
is returned through `ao2_bump`. -/
def ast_geoloc_datastore_get_eprofile (w : World) (ds : Option ast_datastore)
    (ix : Int) : World × Option ast_geoloc_eprofile :=
  match ds with
  | none => (w, none)
  | some d =>
    if d.dsType ≠ GEOLOC_DS_TYPE then (w, none)
    else match d.data with
      | none => (w, none)
      | some eds =>
        if AST_VECTOR_SIZE eds.eprofiles ≤ sizeTOfInt ix then (w, none)
        else ao2_bump w (AST_VECTOR_GET eds.eprofiles (sizeTOfInt ix))

/-- `ast_geoloc_datastore_create_from_eprofile(eprofile)`
(geoloc_datastore.c:136-158). -/
def ast_geoloc_datastore_create_from_eprofile (w : World) (oc : AllocOracle3)
    (appendOk : Bool) (eprofile : Option ast_geoloc_eprofile) :
    World × Option ast_datastore :=
  match eprofile with
  | none => (w, none)
  | some e =>
    let wcr := ast_geoloc_datastore_create w oc (some e.id)
    match wcr.2 with
    | none => (wcr.1, none)
    | some ds =>
      let wad := ast_geoloc_datastore_add_eprofile wcr.1 (some ds) (some e) appendOk
      if wad.2.2 ≠ 0 then
        (ast_datastore_free wad.1 (wad.2.1.getD ds), none)
      else (wad.1, wad.2.1)

/-- Modelled from the spec: the Object Store collaborator's
`retrieve_by_id("profile", name)` (`ast_sorcery_retrieve_by_id`, not under
`src/`).  The oracle `profileOpt` says which profile object (if any) the
name resolves to; on a hit the returned object carries a new reference the
caller must release. -/
def ast_sorcery_retrieve_by_id (w : World) (profileOpt : Option ObjId) :
    World × Option ObjId :=
  match profileOpt with
  | none => (w, none)
  | some p => (ao2_ref w p 1, some p)

/-- Modelled from the spec: the Effective Profile Builder's "From Profile"
path (`ast_geoloc_eprofile_create_from_profile`, in `geoloc_eprofile.c`,
not under `src/`).  On success it returns a fresh ao2 eprofile with
reference count 1 (all intermediate references released internally); on
validation/allocation failure it returns NULL leaving the world
unchanged. -/
def ast_geoloc_eprofile_create_from_profile (w : World) (buildOk : Bool)
    (name : String) : World × Option ast_geoloc_eprofile :=
  if buildOk then
    ({ w with rc := fun x => if x = w.next then 1 else w.rc x, next := w.next + 1 },
      some ⟨w.next, name⟩)
  else (w, none)

/-- `ast_geoloc_datastore_create_from_profile_name(profile_name)`
(geoloc_datastore.c:160-200). -/
def ast_geoloc_datastore_create_from_profile_name (w : World)
    (profileOpt : Option ObjId) (oc : AllocOracle3) (buildOk appendOk : Bool)
    (profile_name : Option String) : World × Option ast_datastore :=
  if ast_strlen_zero profile_name then (w, none)
  else
    let wp := ast_sorcery_retrieve_by_id w profileOpt
    match wp.2 with
    | none => (wp.1, none)
    | some p =>
      let wcr := ast_geoloc_datastore_create wp.1 oc profile_name
      match wcr.2 with
      | none => (ao2_ref wcr.1 p (-1), none)
      | some ds =>
        let wep := ast_geoloc_eprofile_create_from_profile wcr.1 buildOk
          (profile_name.getD "")
        let w4 := ao2_ref wep.1 p (-1)
        match wep.2 with
        | none => (ast_datastore_free w4 ds, none)
        | some ep =>
          let wad := ast_geoloc_datastore_add_eprofile w4 (some ds) (some ep)
            appendOk
          let w6 := ao2_ref wad.1 ep.oid (-1)
          if wad.2.2 ≠ 0 then
            (ast_datastore_free w6 (wad.2.1.getD ds), none)
          else (w6, wad.2.1)

/-! ## Concrete objects used by closed theorems and witnesses -/

/-- A quiescent world: no references held, no heap blocks, fresh ids from 10. -/
def w0ex : World := ⟨fun _ => 0, 0, 10⟩

/-- A world in which object 5 (an eprofile) holds exactly one reference. -/
def wEp : World := ⟨fun x => if x = 5 then 1 else 0, 0, 10⟩

/-- All allocations succeed. -/
def allOk : AllocOracle3 := ⟨true, true, true⟩

/-- A concrete eprofile: object 5 with id "ep1". -/
def epEx : ast_geoloc_eprofile := ⟨5, "ep1"⟩

/-- A valid one-element geolocation store holding `epEx`, exactly as produced
by `ast_geoloc_datastore_create` followed by a successful add. -/
def ds1ex : Option ast_datastore :=
  some ⟨GEOLOC_DS_TYPE, some ⟨none, ⟨[some epEx], true⟩⟩⟩

/-- The element list of a store's private vector (empty for an invalid
handle); observation function used to state size/index properties. -/
def storeElems : Option ast_datastore → List (Option ast_geoloc_eprofile)
  | some ⟨_, some eds⟩ => eds.eprofiles.elems
  | _ => []

/-- Run a sequence of `ast_geoloc_datastore_add_eprofile` calls, each step
supplying the eprofile to add and that call's append-allocation oracle. -/
def runAdds (w : World) (ds : Option ast_datastore)
    (steps : List (ast_geoloc_eprofile × Bool)) : World × Option ast_datastore :=
  steps.foldl
    (fun acc s =>
      ((ast_geoloc_datastore_add_eprofile acc.1 acc.2 (some s.1) s.2).1,
        (ast_geoloc_datastore_add_eprofile acc.1 acc.2 (some s.1) s.2).2.1))
    (w, ds)

/-- The eprofiles whose add succeeded (on a valid store an add succeeds
exactly when its append allocation does), in call order. -/
def successfulAdds (steps : List (ast_geoloc_eprofile × Bool)) :
    List ast_geoloc_eprofile :=
  (steps.filter (fun s => s.2)).map (fun s => s.1)

/-! ## Helper lemmas -/

/-- `ast_geoloc_datastore_create` in closed form: with a non-empty id and all
three allocations succeeding it returns a fresh empty store and three new
heap blocks; on every other path it returns NULL with the world restored. -/
theorem create_eq (w : World) (oc : AllocOracle3) (id : Option String) :
    ast_geoloc_datastore_create w oc id =
      if ast_strlen_zero id = false ∧ oc.dsOk = true ∧ oc.edsOk = true ∧ oc.vecOk = true then
        ({ w with live := w.live + 3 }, some ⟨GEOLOC_DS_TYPE, some ⟨none, ⟨[], true⟩⟩⟩)
      else (w, none) := by
  rcases oc with ⟨dsOk, edsOk, vecOk⟩
  cases h : ast_strlen_zero id <;> cases dsOk <;> cases edsOk <;> cases vecOk <;>
    simp_all [ast_geoloc_datastore_create, ast_datastore_alloc, AST_VECTOR_INIT,
      ast_datastore_free, geoloc_datastore_free, AST_VECTOR_RESET, AST_VECTOR_FREE,
      Prod.ext_iff, World.ext_iff] <;> omega

/-- `ast_geoloc_datastore_add_eprofile` on a valid store and non-NULL
eprofile, in closed form. -/
theorem add_eq_valid (w : World) (d : ast_datastore) (eds : eprofiles_datastore)
    (e : ast_geoloc_eprofile) (ok : Bool)
    (ht : d.dsType = GEOLOC_DS_TYPE) (hd : d.data = some eds) :
    ast_geoloc_datastore_add_eprofile w (some d) (some e) ok =
      if ok then
        ({ w with live := if eds.eprofiles.bufLive then w.live else w.live + 1 },
          some ({ d with
            data := some ({ eds with eprofiles := ⟨eds.eprofiles.elems ++ [some e], true⟩ }) }),
          0)
      else (w, some d, -1) := by
  rcases d with ⟨dt, dd⟩
  simp only at ht hd
  subst ht; subst hd
  cases ok <;> simp [ast_geoloc_datastore_add_eprofile, AST_VECTOR_APPEND]

/-- Freeing a store whose private vector is empty releases exactly the
blocks the store owns and touches no reference count. -/
theorem free_empty_eq (w : World) (d : ast_datastore) (eds : eprofiles_datastore)
    (hd : d.data = some eds) (he : eds.eprofiles.elems = []) :
    ast_datastore_free w d =
      { w with live := w.live - (if eds.eprofiles.bufLive then 3 else 2) } := by
  cases hb : eds.eprofiles.bufLive <;>
    simp [ast_datastore_free, geoloc_datastore_free, AST_VECTOR_RESET,
      AST_VECTOR_FREE, hd, he, hb, World.ext_iff] <;> omega

/-! ## Claim theorems -/

/-- C1: the claim says a successful `ast_geoloc_datastore_add_eprofile`
returns the new number of eprofiles (as the header also documents).  The
code instead returns the raw `AST_VECTOR_APPEND` result, which is 0 on
success: adding one eprofile to a freshly created store succeeds, leaves
the store at size 1, yet returns 0, never the new size. -/
theorem C1_add_eprofile_returns_zero_not_new_size :
    (ast_geoloc_datastore_add_eprofile
        (ast_geoloc_datastore_create w0ex allOk (some "ds1")).1
        (ast_geoloc_datastore_create w0ex allOk (some "ds1")).2
        (some epEx) true).2.2 = 0 ∧
    ast_geoloc_datastore_size
      (ast_geoloc_datastore_add_eprofile
        (ast_geoloc_datastore_create w0ex allOk (some "ds1")).1
        (ast_geoloc_datastore_create w0ex allOk (some "ds1")).2
        (some epEx) true).2.1 = 1 ∧
    (0 : Int) ≠ 1 := by
  refine ⟨by decide, by decide, by decide⟩

/-- C2: the claim says a successful add leaves the eprofile's reference
count one higher (store co-owns) and store destruction releases one
reference per member, so add-then-destroy is reference neutral.  The code
never bumps on add: with the eprofile at reference count 1, a successful
add leaves it at 1 (not 2), and destroying the store then drops it to 0
(not back to 1) — the store releases a reference it never took. -/
theorem C2_add_does_not_bump_and_destroy_over_releases :
    wEp.rc 5 = 1 ∧
    (ast_geoloc_datastore_add_eprofile
        (ast_geoloc_datastore_create wEp allOk (some "ds1")).1
        (ast_geoloc_datastore_create wEp allOk (some "ds1")).2
        (some epEx) true).2.2 = 0 ∧
    (ast_geoloc_datastore_add_eprofile
        (ast_geoloc_datastore_create wEp allOk (some "ds1")).1
        (ast_geoloc_datastore_create wEp allOk (some "ds1")).2
        (some epEx) true).1.rc 5 = 1 ∧
    (ast_datastore_free
        (ast_geoloc_datastore_add_eprofile
          (ast_geoloc_datastore_create wEp allOk (some "ds1")).1
          (ast_geoloc_datastore_create wEp allOk (some "ds1")).2
          (some epEx) true).1
        ((ast_geoloc_datastore_add_eprofile
          (ast_geoloc_datastore_create wEp allOk (some "ds1")).1
          (ast_geoloc_datastore_create wEp allOk (some "ds1")).2
          (some epEx) true).2.1.getD ⟨GEOLOC_DS_TYPE, none⟩)).rc 5 = 0 := by
  refine ⟨by decide, by decide, by decide, by decide⟩

/-- C9: the claim says a store created by `ast_geoloc_datastore_create(id)`
carries the supplied id.  The code callocs the private struct and never
assigns its `id` field, so a successful create leaves the store's
identifier NULL, not `"myid"`. -/
theorem C9_create_leaves_internal_id_null :
    (ast_geoloc_datastore_create w0ex allOk (some "myid")).2 =
      some ⟨GEOLOC_DS_TYPE, some ⟨none, ⟨[], true⟩⟩⟩ ∧
    (none : Option String) ≠ some "myid" := by
  refine ⟨by decide, by decide⟩

/-- C7: every store operation (`add_eprofile`, `size`, `get_eprofile`)
first verifies the handle: on a NULL store, a store of the wrong datastore
type, or an absent internal data pointer, add and size return -1, get
returns NULL, and the world and the supplied store value (hence also the
eprofile argument's reference count) are left unchanged. -/
theorem C7_invalid_handle_no_side_effects (w : World) (ds : Option ast_datastore)
    (ep : Option ast_geoloc_eprofile) (appendOk : Bool) (ix : Int)
    (h : ds = none ∨ ∃ d, ds = some d ∧ (d.dsType ≠ GEOLOC_DS_TYPE ∨ d.data = none)) :
    ast_geoloc_datastore_add_eprofile w ds ep appendOk = (w, ds, -1) ∧
    ast_geoloc_datastore_size ds = -1 ∧
    ast_geoloc_datastore_get_eprofile w ds ix = (w, none) := by
  rcases h with rfl | ⟨d, rfl, h | h⟩ <;>
    [skip;
     skip;
     by_cases ht : d.dsType = GEOLOC_DS_TYPE] <;>
    simp_all [ast_geoloc_datastore_add_eprofile, ast_geoloc_datastore_size,
      ast_geoloc_datastore_get_eprofile]

/-- Witness for C7 at a concrete wrongly-typed store. -/
theorem C7_invalid_handle_no_side_effects_witness :
    ((some (⟨"other_type", none⟩ : ast_datastore) : Option ast_datastore) = none ∨
      ∃ d, (some (⟨"other_type", none⟩ : ast_datastore) : Option ast_datastore) = some d ∧
        (d.dsType ≠ GEOLOC_DS_TYPE ∨ d.data = none)) ∧
    (ast_geoloc_datastore_add_eprofile w0ex (some ⟨"other_type", none⟩) (some epEx) true =
        (w0ex, some ⟨"other_type", none⟩, -1) ∧
      ast_geoloc_datastore_size (some ⟨"other_type", none⟩) = -1 ∧
      ast_geoloc_datastore_get_eprofile w0ex (some ⟨"other_type", none⟩) 0 = (w0ex, none)) :=
  ⟨Or.inr ⟨⟨"other_type", none⟩, rfl, Or.inl (by decide)⟩,
    C7_invalid_handle_no_side_effects w0ex (some ⟨"other_type", none⟩) (some epEx) true 0
      (Or.inr ⟨⟨"other_type", none⟩, rfl, Or.inl (by decide)⟩)⟩

/-- C10: on a valid geolocation store (of any realizable size), a negative
C `int` index is converted to `size_t` by the bounds comparison, compares
greater than or equal to the size, and `ast_geoloc_datastore_get_eprofile`
returns NULL without touching the world. -/
theorem C10_negative_index_returns_null (w : World) (d : ast_datastore)
    (eds : eprofiles_datastore) (ix : Int)
    (htype : d.dsType = GEOLOC_DS_TYPE) (hd : d.data = some eds)
    (hlen : (eds.eprofiles.elems.length : Int) ≤ 2 ^ 64 - 2 ^ 31)
    (hlo : -2 ^ 31 ≤ ix) (hneg : ix < 0) :
    ast_geoloc_datastore_get_eprofile w (some d) ix = (w, none) := by
  have h64 : (2 : Int) ^ 64 = 18446744073709551616 := by norm_num
  have h31 : (2 : Int) ^ 31 = 2147483648 := by norm_num
  have hguard : AST_VECTOR_SIZE eds.eprofiles ≤ sizeTOfInt ix := by
    unfold AST_VECTOR_SIZE sizeTOfInt
    rw [h64]
    rw [h64, h31] at hlen
    rw [h31] at hlo
    omega
  simp [ast_geoloc_datastore_get_eprofile, htype, hd, hguard]

/-- Witness for C10 at a concrete one-element store and index -1. -/
theorem C10_negative_index_returns_null_witness :
    (⟨GEOLOC_DS_TYPE, some ⟨none, ⟨[some epEx], true⟩⟩⟩ : ast_datastore).dsType
        = GEOLOC_DS_TYPE ∧
    (⟨GEOLOC_DS_TYPE, some ⟨none, ⟨[some epEx], true⟩⟩⟩ : ast_datastore).data
        = some ⟨none, ⟨[some epEx], true⟩⟩ ∧
    (((⟨none, ⟨[some epEx], true⟩⟩ : eprofiles_datastore).eprofiles.elems.length : Int)
        ≤ 2 ^ 64 - 2 ^ 31) ∧
    (-2 ^ 31 ≤ (-1 : Int)) ∧ ((-1 : Int) < 0) ∧
    ast_geoloc_datastore_get_eprofile w0ex
        (some ⟨GEOLOC_DS_TYPE, some ⟨none, ⟨[some epEx], true⟩⟩⟩) (-1) = (w0ex, none) :=
  ⟨rfl, rfl, by norm_num, by norm_num, by norm_num,
    C10_negative_index_returns_null w0ex _ _ (-1) rfl rfl (by norm_num) (by norm_num)
      (by norm_num)⟩

/-- C6: `ast_geoloc_datastore_create` returns NULL on a NULL or empty id
and on any allocation failure, releasing whatever was partially allocated
(the world's reference counts and live-block count are restored); on
success it returns a geolocation store whose eprofile collection is empty
(size 0). -/
theorem C6_create_null_empty_alloc_and_success (w : World) (oc : AllocOracle3)
    (id : Option String) :
    (ast_strlen_zero id = true → ast_geoloc_datastore_create w oc id = (w, none)) ∧
    ((ast_geoloc_datastore_create w oc id).2 = none →
      (ast_geoloc_datastore_create w oc id).1.live = w.live ∧
      ∀ o, (ast_geoloc_datastore_create w oc id).1.rc o = w.rc o) ∧
    (ast_strlen_zero id = false →
      (oc.dsOk = false ∨ oc.edsOk = false ∨ oc.vecOk = false) →
      (ast_geoloc_datastore_create w oc id).2 = none) ∧
    (ast_strlen_zero id = false → oc.dsOk = true → oc.edsOk = true → oc.vecOk = true →
      (ast_geoloc_datastore_create w oc id).2 =
        some ⟨GEOLOC_DS_TYPE, some ⟨none, ⟨[], true⟩⟩⟩ ∧
      ast_geoloc_datastore_size (ast_geoloc_datastore_create w oc id).2 = 0) := by
  by_cases hc : ast_strlen_zero id = false ∧ oc.dsOk = true ∧ oc.edsOk = true ∧
      oc.vecOk = true
  · obtain ⟨h1, h2, h3, h4⟩ := hc
    rw [create_eq, if_pos ⟨h1, h2, h3, h4⟩]
    simp [h1, h2, h3, h4, ast_geoloc_datastore_size, AST_VECTOR_SIZE]
  · rw [create_eq, if_neg hc]
    exact ⟨fun _ => rfl, fun _ => ⟨rfl, fun _ => rfl⟩, fun _ _ => rfl,
      fun h1 h2 h3 h4 => absurd ⟨h1, h2, h3, h4⟩ hc⟩

/-- Witness for C6 at a concrete id with all allocations succeeding. -/
theorem C6_create_null_empty_alloc_and_success_witness :
    (ast_strlen_zero (some "a") = true →
      ast_geoloc_datastore_create w0ex allOk (some "a") = (w0ex, none)) ∧
    ((ast_geoloc_datastore_create w0ex allOk (some "a")).2 = none →
      (ast_geoloc_datastore_create w0ex allOk (some "a")).1.live = w0ex.live ∧
      ∀ o, (ast_geoloc_datastore_create w0ex allOk (some "a")).1.rc o = w0ex.rc o) ∧
    (ast_strlen_zero (some "a") = false →
      (allOk.dsOk = false ∨ allOk.edsOk = false ∨ allOk.vecOk = false) →
      (ast_geoloc_datastore_create w0ex allOk (some "a")).2 = none) ∧
    (ast_strlen_zero (some "a") = false → allOk.dsOk = true → allOk.edsOk = true →
      allOk.vecOk = true →
      (ast_geoloc_datastore_create w0ex allOk (some "a")).2 =
        some ⟨GEOLOC_DS_TYPE, some ⟨none, ⟨[], true⟩⟩⟩ ∧
      ast_geoloc_datastore_size (ast_geoloc_datastore_create w0ex allOk (some "a")).2 = 0) :=
  C6_create_null_empty_alloc_and_success w0ex allOk (some "a")

/-- C5: `ast_geoloc_datastore_create_from_eprofile` returns NULL on a NULL
eprofile; it builds the store from the eprofile's id (so an empty id makes
the create, and hence the call, fail); whenever it returns NULL the world
is fully restored (no partially constructed store escapes, the
just-created store being destroyed when the add fails); and on success the
returned store is a geolocation store holding exactly the supplied
eprofile. -/
theorem C5_create_from_eprofile_no_partial_state (w : World) (oc : AllocOracle3)
    (appendOk : Bool) (epOpt : Option ast_geoloc_eprofile) :
    (epOpt = none →
      ast_geoloc_datastore_create_from_eprofile w oc appendOk epOpt = (w, none)) ∧
    (∀ e, epOpt = some e → e.id = "" →
      (ast_geoloc_datastore_create_from_eprofile w oc appendOk epOpt).2 = none) ∧
    ((ast_geoloc_datastore_create_from_eprofile w oc appendOk epOpt).2 = none →
      (ast_geoloc_datastore_create_from_eprofile w oc appendOk epOpt).1.live = w.live ∧
      ∀ o, (ast_geoloc_datastore_create_from_eprofile w oc appendOk epOpt).1.rc o
        = w.rc o) ∧
    (∀ e d, epOpt = some e →
      (ast_geoloc_datastore_create_from_eprofile w oc appendOk epOpt).2 = some d →
      d.dsType = GEOLOC_DS_TYPE ∧
      ∃ eds, d.data = some eds ∧ eds.eprofiles.elems = [some e]) := by
  rcases epOpt with _ | e
  · simp [ast_geoloc_datastore_create_from_eprofile]
  · by_cases hc : ast_strlen_zero (some e.id) = false ∧ oc.dsOk = true ∧
        oc.edsOk = true ∧ oc.vecOk = true
    · have hne : e.id ≠ "" := by
        intro h0
        have h1 := hc.1
        rw [h0] at h1
        exact absurd h1 (by decide)
      have hcr := create_eq w oc (some e.id)
      rw [if_pos hc] at hcr
      have had := add_eq_valid { w with live := w.live + 3 }
        ⟨GEOLOC_DS_TYPE, some ⟨none, ⟨[], true⟩⟩⟩ ⟨none, ⟨[], true⟩⟩ e appendOk rfl rfl
      cases appendOk
      · rw [if_neg (by simp)] at had
        have hfree := free_empty_eq { w with live := w.live + 3 }
          ⟨GEOLOC_DS_TYPE, some ⟨none, ⟨[], true⟩⟩⟩ ⟨none, ⟨[], true⟩⟩ rfl rfl
        have hfun : ast_geoloc_datastore_create_from_eprofile w oc false (some e)
            = ({ w with live := w.live + 3 - 3 }, none) := by
          simp [ast_geoloc_datastore_create_from_eprofile, hcr, had, hfree]
        rw [hfun]
        refine ⟨by simp, fun e2 he2 hid => ?_, fun _ => ⟨by simp, fun o => rfl⟩,
          fun e2 d _ hd => by simp at hd⟩
        cases he2
        exact absurd hid hne
      · rw [if_pos rfl] at had
        have hfun : ast_geoloc_datastore_create_from_eprofile w oc true (some e)
            = ({ w with live := w.live + 3 },
                some ⟨GEOLOC_DS_TYPE, some ⟨none, ⟨[some e], true⟩⟩⟩) := by
          simp [ast_geoloc_datastore_create_from_eprofile, hcr, had]
        rw [hfun]
        refine ⟨by simp, fun e2 he2 hid => ?_, fun hnone => by simp at hnone,
          fun e2 d he2 hd => ?_⟩
        · cases he2
          exact absurd hid hne
        · cases he2
          simp only [Option.some.injEq] at hd
          subst hd
          exact ⟨rfl, ⟨none, ⟨[some e], true⟩⟩, rfl, rfl⟩
    · have hcr := create_eq w oc (some e.id)
      rw [if_neg hc] at hcr
      simp [ast_geoloc_datastore_create_from_eprofile, hcr]

/-- C3: `ast_geoloc_datastore_create_from_profile_name` rolls back fully on
every failure path (empty name, profile lookup miss, store allocation
failure, eprofile build failure, add failure): it returns NULL with the
world's live-block count and every reference count restored.  The Object
Store profile reference is released on every path, success included, and
on success the builder's intermediate eprofile reference has also been
released (the new eprofile's count is back to 0) while the returned store
accounts for exactly its own three heap blocks. -/
theorem C3_create_from_profile_name_rollback (w : World) (profileOpt : Option ObjId)
    (oc : AllocOracle3) (buildOk appendOk : Bool) (profile_name : Option String)
    (hfresh : w.rc w.next = 0) (hp : profileOpt ≠ some w.next) :
    ((ast_geoloc_datastore_create_from_profile_name w profileOpt oc buildOk appendOk
        profile_name).2 = none →
      (ast_geoloc_datastore_create_from_profile_name w profileOpt oc buildOk appendOk
        profile_name).1.live = w.live ∧
      ∀ o, (ast_geoloc_datastore_create_from_profile_name w profileOpt oc buildOk appendOk
        profile_name).1.rc o = w.rc o) ∧
    (∀ p, profileOpt = some p →
      (ast_geoloc_datastore_create_from_profile_name w profileOpt oc buildOk appendOk
        profile_name).1.rc p = w.rc p) ∧
    ((ast_geoloc_datastore_create_from_profile_name w profileOpt oc buildOk appendOk
        profile_name).2 ≠ none →
      (ast_geoloc_datastore_create_from_profile_name w profileOpt oc buildOk appendOk
        profile_name).1.live = w.live + 3 ∧
      (ast_geoloc_datastore_create_from_profile_name w profileOpt oc buildOk appendOk
        profile_name).1.rc w.next = 0) := by
  by_cases hsz : ast_strlen_zero profile_name = true
  · simp [ast_geoloc_datastore_create_from_profile_name, hsz]
  · have hsz2 : ast_strlen_zero profile_name = false := by
      revert hsz; cases ast_strlen_zero profile_name <;> simp
    rcases profileOpt with _ | p
    · simp [ast_geoloc_datastore_create_from_profile_name, ast_sorcery_retrieve_by_id,
        hsz2]
    · have hp2 : p ≠ w.next := fun h => hp (by rw [h])
      rcases oc with ⟨dsOk, edsOk, vecOk⟩
      cases dsOk <;> cases edsOk <;> cases vecOk <;> cases buildOk <;> cases appendOk <;>
        simp [ast_geoloc_datastore_create_from_profile_name, ast_sorcery_retrieve_by_id,
          ast_geoloc_eprofile_create_from_profile, ast_geoloc_datastore_create,
          ast_geoloc_datastore_add_eprofile, ast_datastore_alloc, AST_VECTOR_INIT,
          AST_VECTOR_APPEND, ast_datastore_free, geoloc_datastore_free,
          AST_VECTOR_RESET, AST_VECTOR_FREE, ao2_cleanup, ao2_ref, hsz2] <;>
        (try refine ⟨?_, ?_, ?_⟩) <;> (try refine ⟨?_, ?_⟩) <;> (try intro o) <;>
        (try split_ifs) <;> (try subst_vars) <;> (try simp_all) <;> (try omega)

/-- Witness for C3 at a concrete successful run: profile object 5 found,
all allocations succeed, build and append succeed. -/
theorem C3_create_from_profile_name_rollback_witness :
    wEp.rc wEp.next = 0 ∧ (some 5 : Option ObjId) ≠ some wEp.next ∧
    (((ast_geoloc_datastore_create_from_profile_name wEp (some 5) allOk true true
        (some "prof")).2 = none →
      (ast_geoloc_datastore_create_from_profile_name wEp (some 5) allOk true true
        (some "prof")).1.live = wEp.live ∧
      ∀ o, (ast_geoloc_datastore_create_from_profile_name wEp (some 5) allOk true true
        (some "prof")).1.rc o = wEp.rc o) ∧
    (∀ p, (some 5 : Option ObjId) = some p →
      (ast_geoloc_datastore_create_from_profile_name wEp (some 5) allOk true true
        (some "prof")).1.rc p = wEp.rc p) ∧
    ((ast_geoloc_datastore_create_from_profile_name wEp (some 5) allOk true true
        (some "prof")).2 ≠ none →
      (ast_geoloc_datastore_create_from_profile_name wEp (some 5) allOk true true
        (some "prof")).1.live = wEp.live + 3 ∧
      (ast_geoloc_datastore_create_from_profile_name wEp (some 5) allOk true true
        (some "prof")).1.rc wEp.next = 0)) :=
  ⟨by decide, by decide,
    C3_create_from_profile_name_rollback wEp (some 5) allOk true true (some "prof")
      (by decide) (by decide)⟩

/-- C4 counterexample: a valid one-element geolocation store and the C int
index -1.  The claim's only index-based null condition, "index ≥ current
size", does not hold (-1 < 1), and none of the handle conditions hold, yet
`ast_geoloc_datastore_get_eprofile` returns NULL instead of an eprofile
with a bumped reference count. -/
theorem C4_counterexample_negative_index :
    (ds1ex ≠ none) ∧
    (∀ d, ds1ex = some d → d.dsType = GEOLOC_DS_TYPE ∧ d.data ≠ none) ∧
    ¬ ((-1 : Int) ≥ ast_geoloc_datastore_size ds1ex) ∧
    (ast_geoloc_datastore_get_eprofile w0ex ds1ex (-1)).2 = none := by
  refine ⟨by decide, ?_, by decide, by decide⟩
  intro d hd
  rw [show d = ⟨GEOLOC_DS_TYPE, some ⟨none, ⟨[some epEx], true⟩⟩⟩ from
    (Option.some_inj.mp hd).symm]
  exact ⟨rfl, by decide⟩

/-- C4 (amended): for every store and C int index,
`ast_geoloc_datastore_get_eprofile` returns NULL when the handle is NULL,
of the wrong type, or has no internal data, when the index is negative, or
when the index is at least the current size; otherwise it returns the
eprofile stored at that index with its reference count incremented by
exactly one, so one matching release restores the pre-call count. -/
theorem C4_get_eprofile_checked (w : World) (ds : Option ast_datastore) (ix : Int)
    (hlo : -2 ^ 31 ≤ ix) (hhi : ix < 2 ^ 31)
    (hlen : (storeElems ds).length < 2 ^ 31) :
    ((ds = none ∨ (∃ d, ds = some d ∧ (d.dsType ≠ GEOLOC_DS_TYPE ∨ d.data = none))) →
      ast_geoloc_datastore_get_eprofile w ds ix = (w, none)) ∧
    (ix < 0 → ast_geoloc_datastore_get_eprofile w ds ix = (w, none)) ∧
    (∀ d eds, ds = some d → d.dsType = GEOLOC_DS_TYPE → d.data = some eds →
      (((eds.eprofiles.elems.length : Int) ≤ ix →
        ast_geoloc_datastore_get_eprofile w ds ix = (w, none)) ∧
      (∀ e, 0 ≤ ix → ix < (eds.eprofiles.elems.length : Int) →
        eds.eprofiles.elems.getD ix.toNat none = some e →
        ast_geoloc_datastore_get_eprofile w ds ix = (ao2_ref w e.oid 1, some e) ∧
        (∀ o, (ao2_ref (ao2_ref w e.oid 1) e.oid (-1)).rc o = w.rc o)))) := by
  have h64 : (2 : Int) ^ 64 = 18446744073709551616 := by norm_num
  have h31 : (2 : Int) ^ 31 = 2147483648 := by norm_num
  have h31n : (2 : Nat) ^ 31 = 2147483648 := by norm_num
  refine ⟨?_, ?_, ?_⟩
  · rintro (rfl | ⟨d, rfl, h | h⟩) <;>
      [skip; skip; by_cases ht : d.dsType = GEOLOC_DS_TYPE] <;>
      simp_all [ast_geoloc_datastore_get_eprofile]
  · intro hneg
    rcases ds with _ | d
    · simp [ast_geoloc_datastore_get_eprofile]
    · rcases d with ⟨dt, _ | eds⟩
      · by_cases ht : dt = GEOLOC_DS_TYPE <;>
          simp [ast_geoloc_datastore_get_eprofile, ht]
      · by_cases ht : dt = GEOLOC_DS_TYPE
        · have hguard : AST_VECTOR_SIZE eds.eprofiles ≤ sizeTOfInt ix := by
            unfold AST_VECTOR_SIZE sizeTOfInt
            have hl : eds.eprofiles.elems.length < 2 ^ 31 := by
              simpa [storeElems] using hlen
            rw [h64]
            rw [h31] at hlo
            rw [h31n] at hl
            omega
          simp [ast_geoloc_datastore_get_eprofile, ht, hguard]
        · simp [ast_geoloc_datastore_get_eprofile, ht]
  · rintro d eds rfl ht hd
    have hl : eds.eprofiles.elems.length < 2 ^ 31 := by
      rcases d with ⟨dt, dd⟩
      simp only at ht hd
      subst ht; subst hd
      simpa [storeElems] using hlen
    constructor
    · intro hge
      have hguard : AST_VECTOR_SIZE eds.eprofiles ≤ sizeTOfInt ix := by
        unfold AST_VECTOR_SIZE sizeTOfInt
        rw [h64]
        rw [h31] at hlo hhi
        omega
      simp [ast_geoloc_datastore_get_eprofile, ht, hd, hguard]
    · intro e hnn hlt hget
      have hix : sizeTOfInt ix = ix.toNat := by
        unfold sizeTOfInt
        rw [h64]
        rw [h31] at hhi
        omega
      have hguard : ¬ (AST_VECTOR_SIZE eds.eprofiles ≤ sizeTOfInt ix) := by
        unfold AST_VECTOR_SIZE
        rw [hix]
        omega
      have hguard2 : ¬ (AST_VECTOR_SIZE eds.eprofiles ≤ ix.toNat) := by
        unfold AST_VECTOR_SIZE
        omega
      have hget2 : (eds.eprofiles.elems[ix.toNat]?).getD none = some e := by
        simpa [List.getD_eq_getElem?_getD] using hget
      refine ⟨?_, ?_⟩
      · simp [ast_geoloc_datastore_get_eprofile, ht, hd, hguard, AST_VECTOR_GET,
          hix, hguard2, hget2, ao2_bump]
      · intro o
        simp only [ao2_ref]
        split_ifs <;> omega

/-- Witness for C4 (amended) at the one-element store and index 0. -/
theorem C4_get_eprofile_checked_witness :
    (-2 ^ 31 ≤ (0 : Int)) ∧ ((0 : Int) < 2 ^ 31) ∧
    ((storeElems ds1ex).length < 2 ^ 31) ∧
    (((ds1ex = none ∨
        (∃ d, ds1ex = some d ∧ (d.dsType ≠ GEOLOC_DS_TYPE ∨ d.data = none))) →
      ast_geoloc_datastore_get_eprofile w0ex ds1ex 0 = (w0ex, none)) ∧
    ((0 : Int) < 0 → ast_geoloc_datastore_get_eprofile w0ex ds1ex 0 = (w0ex, none)) ∧
    (∀ d eds, ds1ex = some d → d.dsType = GEOLOC_DS_TYPE → d.data = some eds →
      (((eds.eprofiles.elems.length : Int) ≤ 0 →
        ast_geoloc_datastore_get_eprofile w0ex ds1ex 0 = (w0ex, none)) ∧
      (∀ e, (0 : Int) ≤ 0 → (0 : Int) < (eds.eprofiles.elems.length : Int) →
        eds.eprofiles.elems.getD (0 : Int).toNat none = some e →
        ast_geoloc_datastore_get_eprofile w0ex ds1ex 0 = (ao2_ref w0ex e.oid 1, some e) ∧
        (∀ o, (ao2_ref (ao2_ref w0ex e.oid 1) e.oid (-1)).rc o = w0ex.rc o))))) :=
  ⟨by decide, by decide, by decide,
    C4_get_eprofile_checked w0ex ds1ex 0 (by decide) (by decide) (by decide)⟩

/-- On a valid geolocation store, `runAdds` appends exactly the
successfully added eprofiles, in order, at the end of the element list,
preserving the store's validity. -/
theorem runAdds_elems (steps : List (ast_geoloc_eprofile × Bool)) :
    ∀ (w : World) (d : ast_datastore) (eds : eprofiles_datastore),
      d.dsType = GEOLOC_DS_TYPE → d.data = some eds →
      ∃ w2 d2, runAdds w (some d) steps = (w2, some d2) ∧
        d2.dsType = GEOLOC_DS_TYPE ∧
        ∃ eds2, d2.data = some eds2 ∧
          eds2.eprofiles.elems =
            eds.eprofiles.elems ++ (successfulAdds steps).map some := by
  induction steps with
  | nil =>
    intro w d eds ht hd
    exact ⟨w, d, rfl, ht, eds, hd, by simp [successfulAdds]⟩
  | cons s rest ih =>
    intro w d eds ht hd
    have had := add_eq_valid w d eds s.1 s.2 ht hd
    cases hb : s.2
    · rw [hb] at had
      rw [if_neg (by simp)] at had
      obtain ⟨w2, d2, heq, ht2, eds2, hd2, helems⟩ := ih w d eds ht hd
      refine ⟨w2, d2, ?_, ht2, eds2, hd2, ?_⟩
      · simpa [runAdds, hb, had] using heq
      · simpa [successfulAdds, hb] using helems
    · rw [hb] at had
      rw [if_pos rfl] at had
      obtain ⟨w2, d2, heq, ht2, eds2, hd2, helems⟩ :=
        ih { w with live := if eds.eprofiles.bufLive then w.live else w.live + 1 }
          ⟨d.dsType, some ⟨eds.id, ⟨eds.eprofiles.elems ++ [some s.1], true⟩⟩⟩
          ⟨eds.id, ⟨eds.eprofiles.elems ++ [some s.1], true⟩⟩ ht rfl
      refine ⟨w2, d2, ?_, ht2, eds2, hd2, ?_⟩
      · simpa [runAdds, hb, had] using heq
      · rw [helems]
        simp [successfulAdds, hb]

/-- C8: starting from a freshly created store, after any sequence of adds,
the size equals the number of successful adds, the indices `0..size-1`
hold no null slots, and `get_eprofile(i)` returns the i-th successfully
added eprofile (the element last placed at that logical position). -/
theorem C8_store_ordering_invariant (w : World) (oc : AllocOracle3) (id : Option String)
    (steps : List (ast_geoloc_eprofile × Bool))
    (hid : ast_strlen_zero id = false) (hoc : oc = ⟨true, true, true⟩)
    (hcount : (successfulAdds steps).length < 2 ^ 31) :
    ast_geoloc_datastore_size
        (runAdds (ast_geoloc_datastore_create w oc id).1
          (ast_geoloc_datastore_create w oc id).2 steps).2
      = (successfulAdds steps).length ∧
    (∀ x, x ∈ storeElems (runAdds (ast_geoloc_datastore_create w oc id).1
          (ast_geoloc_datastore_create w oc id).2 steps).2 → x ≠ none) ∧
    (∀ i : Nat, i < (successfulAdds steps).length →
      (ast_geoloc_datastore_get_eprofile
          (runAdds (ast_geoloc_datastore_create w oc id).1
            (ast_geoloc_datastore_create w oc id).2 steps).1
          (runAdds (ast_geoloc_datastore_create w oc id).1
            (ast_geoloc_datastore_create w oc id).2 steps).2 (i : Int)).2
        = some ((successfulAdds steps).getD i ⟨0, ""⟩)) := by
  subst hoc
  have hcr := create_eq w ⟨true, true, true⟩ id
  rw [if_pos ⟨hid, rfl, rfl, rfl⟩] at hcr
  rw [hcr]
  obtain ⟨w2, d2, heq, ht2, eds2, hd2, helems⟩ :=
    runAdds_elems steps { w with live := w.live + 3 }
      ⟨GEOLOC_DS_TYPE, some ⟨none, ⟨[], true⟩⟩⟩ ⟨none, ⟨[], true⟩⟩ rfl rfl
  rw [heq]
  rw [show (⟨none, ⟨[], true⟩⟩ : eprofiles_datastore).eprofiles.elems = [] from rfl,
    List.nil_append] at helems
  have hlen2 : eds2.eprofiles.elems.length = (successfulAdds steps).length := by
    rw [helems, List.length_map]
  rcases d2 with ⟨dt2, dd2⟩
  simp only at ht2 hd2
  subst ht2
  subst hd2
  refine ⟨?_, ?_, ?_⟩
  · simp [ast_geoloc_datastore_size, AST_VECTOR_SIZE, GEOLOC_DS_TYPE, hlen2]
  · intro x hx
    rw [show storeElems (some ⟨GEOLOC_DS_TYPE, some eds2⟩) = eds2.eprofiles.elems from
      rfl, helems] at hx
    simp only [List.mem_map] at hx
    obtain ⟨e, _, rfl⟩ := hx
    simp
  · intro i hi
    have hi31 : i < 2 ^ 31 := hi.trans hcount
    have hix : sizeTOfInt (i : Int) = i := by
      unfold sizeTOfInt
      have hmod : ((i : Int) % 2 ^ 64) = (i : Int) := by
        refine Int.emod_eq_of_lt (by positivity) ?_
        have h1 : (i : Int) < 2 ^ 31 := by exact_mod_cast hi31
        have h2 : ((2 : Int) ^ 31) < 2 ^ 64 := by norm_num
        omega
      rw [hmod]
      simp
    have hguard : ¬ (AST_VECTOR_SIZE eds2.eprofiles ≤ sizeTOfInt (i : Int)) := by
      rw [hix]
      unfold AST_VECTOR_SIZE
      omega
    have hget : AST_VECTOR_GET eds2.eprofiles i
        = some ((successfulAdds steps).getD i ⟨0, ""⟩) := by
      unfold AST_VECTOR_GET
      rw [helems, List.getD_eq_getElem?_getD, List.getElem?_map,
        List.getElem?_eq_getElem hi, List.getD_eq_getElem?_getD,
        List.getElem?_eq_getElem hi]
      simp
    have hguard2 : ¬ (AST_VECTOR_SIZE eds2.eprofiles ≤ i) := by
      unfold AST_VECTOR_SIZE
      omega
    simp [ast_geoloc_datastore_get_eprofile, hguard2, hix, hget, ao2_bump]

/-- Witness for C8 at a concrete run: three adds of which the second's
append allocation fails. -/
theorem C8_store_ordering_invariant_witness :
    ast_strlen_zero (some "ds1") = false ∧
    allOk = (⟨true, true, true⟩ : AllocOracle3) ∧
    (successfulAdds [(epEx, true), (⟨6, "ep2"⟩, false), (⟨7, "ep3"⟩, true)]).length
      < 2 ^ 31 ∧
    (ast_geoloc_datastore_size
        (runAdds (ast_geoloc_datastore_create w0ex allOk (some "ds1")).1
          (ast_geoloc_datastore_create w0ex allOk (some "ds1")).2
          [(epEx, true), (⟨6, "ep2"⟩, false), (⟨7, "ep3"⟩, true)]).2
      = (successfulAdds [(epEx, true), (⟨6, "ep2"⟩, false), (⟨7, "ep3"⟩, true)]).length ∧
    (∀ x, x ∈ storeElems (runAdds (ast_geoloc_datastore_create w0ex allOk (some "ds1")).1
          (ast_geoloc_datastore_create w0ex allOk (some "ds1")).2
          [(epEx, true), (⟨6, "ep2"⟩, false), (⟨7, "ep3"⟩, true)]).2 → x ≠ none) ∧
    (∀ i : Nat,
      i < (successfulAdds [(epEx, true), (⟨6, "ep2"⟩, false), (⟨7, "ep3"⟩, true)]).length →
      (ast_geoloc_datastore_get_eprofile
          (runAdds (ast_geoloc_datastore_create w0ex allOk (some "ds1")).1
            (ast_geoloc_datastore_create w0ex allOk (some "ds1")).2
            [(epEx, true), (⟨6, "ep2"⟩, false), (⟨7, "ep3"⟩, true)]).1
          (runAdds (ast_geoloc_datastore_create w0ex allOk (some "ds1")).1
            (ast_geoloc_datastore_create w0ex allOk (some "ds1")).2
            [(epEx, true), (⟨6, "ep2"⟩, false), (⟨7, "ep3"⟩, true)]).2 (i : Int)).2
        = some ((successfulAdds
            [(epEx, true), (⟨6, "ep2"⟩, false), (⟨7, "ep3"⟩, true)]).getD i ⟨0, ""⟩))) :=
  ⟨by decide, rfl, by decide,
    C8_store_ordering_invariant w0ex allOk (some "ds1")
      [(epEx, true), (⟨6, "ep2"⟩, false), (⟨7, "ep3"⟩, true)] (by decide) rfl (by decide)⟩

/-- Witness for C5 at a concrete eprofile with a failing append. -/
theorem C5_create_from_eprofile_no_partial_state_witness :
    ((some epEx : Option ast_geoloc_eprofile) = none →
      ast_geoloc_datastore_create_from_eprofile wEp allOk false (some epEx)
        = (wEp, none)) ∧
    (∀ e, (some epEx : Option ast_geoloc_eprofile) = some e → e.id = "" →
      (ast_geoloc_datastore_create_from_eprofile wEp allOk false (some epEx)).2
        = none) ∧
    ((ast_geoloc_datastore_create_from_eprofile wEp allOk false (some epEx)).2 = none →
      (ast_geoloc_datastore_create_from_eprofile wEp allOk false (some epEx)).1.live
        = wEp.live ∧
      ∀ o, (ast_geoloc_datastore_create_from_eprofile wEp allOk false (some epEx)).1.rc o
        = wEp.rc o) ∧
    (∀ e d, (some epEx : Option ast_geoloc_eprofile) = some e →
      (ast_geoloc_datastore_create_from_eprofile wEp allOk false (some epEx)).2
        = some d →
      d.dsType = GEOLOC_DS_TYPE ∧
      ∃ eds, d.data = some eds ∧ eds.eprofiles.elems = [some e]) :=
  C5_create_from_eprofile_no_partial_state wEp allOk false (some epEx)
